import Mathlib

/-!
# Verification of the nslogger binary log decoder

Shallow embedding of the Go package `nslogger` (files `nsloggerDecode.go`
and the `logMessageString` accumulator shown in `README.md`).

Modelling conventions:

* A Go byte slice `[]byte` is a `List Nat`; a Go string is likewise its byte
  sequence (`GoStr`), since Go's `string([]byte)` conversion is
  byte-for-byte.
* Go `uint32` arithmetic wraps modulo `2^32`; every arithmetic step the Go
  code performs on a `uint32` variable (`nBytes`, `totalSize`, `partSize`,
  `fileSize`) is wrapped with `m32`.
* An out-of-range slice expression `b[lo:hi]` panics in Go; here a bounds
  check (`readBytes`) yields `none`, propagated as `Crash.sliceOutOfRange`.
* `check(err)` with a non-nil error calls `log.Fatal`, terminating the
  process; that is the `Crash.fatal*` family.  A crash outcome is distinct
  from the `(res, error)` pair `NsLoggerParse` can return.
* `fmt.Sprintf("%v", val)` on a Go integer is its decimal rendering
  (`intDecBytes`).  `fmt.Sprintf("%v", time.Unix(val, 0))` depends on the
  ambient time zone; it is modelled as an arbitrary formatter parameter
  `tfmt : Int → GoStr` threaded through the definitions.  The accumulator's
  `fmt.Sprintf("%v"+t.separator, value)` splices the caller-supplied
  separator into the format string, so its output is the standard library's
  format-directive processing of the separator after the decimal; that
  stdlib rendering is likewise modelled as a parameter
  `sfmt : GoStr → Int → GoStr` (applied to the separator and the value).
* The unbounded outer `for` loop of `NsLoggerParse` is modelled with fuel;
  `NsLoggerParse` itself supplies `b.length + 1` units, which strictly
  exceeds the iteration count of every terminating run (each iteration
  consumes at least 6 bytes when no wrap-around occurs).
-/

namespace Nslogger

/-- A Go byte sequence (both `[]byte` and `string`). -/
abbrev GoStr := List Nat

/-- Equality of `Except` results is decidable component-wise. -/
instance {ε α : Type} [DecidableEq ε] [DecidableEq α] : DecidableEq (Except ε α)
  | .ok a, .ok b => decidable_of_iff (a = b) (by simp)
  | .error a, .error b => decidable_of_iff (a = b) (by simp)
  | .ok _, .error _ => isFalse (by simp)
  | .error _, .ok _ => isFalse (by simp)

/-- Go `uint32` wrap-around. -/
def m32 (x : Nat) : Nat := x % 4294967296

/-- Big-endian value of a byte list (`encoding/binary` BigEndian). -/
def beNat (bs : GoStr) : Nat := bs.foldl (fun a x => a * 256 + x) 0

/-- Two's-complement reinterpretation of a `w`-bit unsigned value as signed
(`int16`/`int32`/`int64` in `binary.Read`). -/
def sint (w : Nat) (n : Nat) : Int :=
  if n < 2 ^ (w - 1) then (n : Int) else (n : Int) - 2 ^ w

/-- Decimal ASCII rendering of a natural number. -/
def natDecBytes (n : Nat) : GoStr := (Nat.toDigits 10 n).map Char.toNat

/-- Decimal ASCII rendering of an integer: Go `fmt.Sprintf("%v", val)` for
integer `val`. -/
def intDecBytes (i : Int) : GoStr :=
  if i < 0 then 45 :: natDecBytes i.natAbs else natDecBytes i.natAbs

/-- The Go slice expression `b[lo:hi]`: defined when `lo ≤ hi ≤ len(b)`,
otherwise Go panics (modelled by `none`). -/
def readBytes (b : List Nat) (lo hi : Nat) : Option (List Nat) :=
  if lo ≤ hi ∧ hi ≤ b.length then some ((b.drop lo).take (hi - lo)) else none

/-- Go `BigEndian.Uint16(b[i : i+2])`, the bound computed in `uint32`. -/
def uint16At (b : List Nat) (i : Nat) : Option Nat :=
  (readBytes b i (m32 (i + 2))).map beNat

/-- Go `BigEndian.Uint32(b[i : i+4])`, the bound computed in `uint32`. -/
def uint32At (b : List Nat) (i : Nat) : Option Nat :=
  (readBytes b i (m32 (i + 4))).map beNat

/-- Part-key constant from `nsloggerDecode.go`. -/
def PartKeyMessageType : Nat := 0

/-- Part-key constant from `nsloggerDecode.go`. -/
def PartKeyTimestampS : Nat := 1

/-- Part-key constant from `nsloggerDecode.go`. -/
def PartKeyTimestampMs : Nat := 2

/-- Part-key constant from `nsloggerDecode.go`. -/
def PartKeyTimestampUs : Nat := 3

/-- Part-key constant from `nsloggerDecode.go`. -/
def PartKeyThreadId : Nat := 4

/-- Part-key constant from `nsloggerDecode.go`. -/
def PartKeyTag : Nat := 5

/-- Part-key constant from `nsloggerDecode.go`. -/
def PartKeyLevel : Nat := 6

/-- Part-key constant from `nsloggerDecode.go`. -/
def PartKeyMessage : Nat := 7

/-- Part-key constant from `nsloggerDecode.go`. -/
def PartKeyImageWidth : Nat := 8

/-- Part-key constant from `nsloggerDecode.go`. -/
def PartKeyImageHeight : Nat := 9

/-- Part-key constant from `nsloggerDecode.go`. -/
def PartKeyMessageSeq : Nat := 10

/-- Part-key constant from `nsloggerDecode.go`. -/
def PartKeyFilename : Nat := 11

/-- Part-key constant from `nsloggerDecode.go`. -/
def PartKeyLinenumber : Nat := 12

/-- Part-key constant from `nsloggerDecode.go`. -/
def PartKeyFunctionname : Nat := 13

/-- Part-key constant from `nsloggerDecode.go`. -/
def PartKeyClientName : Nat := 20

/-- Part-key constant from `nsloggerDecode.go`. -/
def PartKeyClientVersion : Nat := 21

/-- Part-key constant from `nsloggerDecode.go`. -/
def PartKeyOsName : Nat := 22

/-- Part-key constant from `nsloggerDecode.go`. -/
def PartKeyOsVersion : Nat := 23

/-- Part-key constant from `nsloggerDecode.go`. -/
def PartKeyClientModel : Nat := 24

/-- Part-key constant from `nsloggerDecode.go`. -/
def PartKeyUniqueid : Nat := 25

/-- Part-key constant from `nsloggerDecode.go`. -/
def PartKeyUserDefined : Nat := 100

/-- Part-type constant from `nsloggerDecode.go`. -/
def PartTypeString : Nat := 0

/-- Part-type constant from `nsloggerDecode.go`. -/
def PartTypeBinary : Nat := 1

/-- Part-type constant from `nsloggerDecode.go`. -/
def PartTypeInt16 : Nat := 2

/-- Part-type constant from `nsloggerDecode.go`. -/
def PartTypeInt32 : Nat := 3

/-- Part-type constant from `nsloggerDecode.go`. -/
def PartTypeInt64 : Nat := 4

/-- Part-type constant from `nsloggerDecode.go`. -/
def PartTypeImage : Nat := 5

/-- Process-terminating events: a Go runtime panic (out-of-range slice) or a
`check(err)` call reaching `log.Fatal`. -/
inductive Crash where
  | sliceOutOfRange
  | fatalUnknownPartType
  | fatalSkipNotHandled
  | fatalDateBadType
  deriving DecidableEq, Repr

/-- The `logMessageString` record accumulator (from the `logMessage`
implementation shown in `README.md`). -/
structure logMessageString where
  value : GoStr
  separator : GoStr
  deriving DecidableEq, Repr

/-- Go method `addString`: append `value + separator` unless `value` is the
empty string. -/
def logMessageString.addString (m : logMessageString) (v : GoStr) : logMessageString :=
  if v = [] then m else ⟨m.value ++ v ++ m.separator, m.separator⟩

/-- Go method `addInt16`: `t.value += fmt.Sprintf("%v"+t.separator, value)`.
The `Sprintf` call splices the caller-supplied separator into the format
string, so the appended text is the Go standard library's rendering of the
format `"%v" ++ separator` applied to the one value: a separator without a
`%` byte is copied verbatim after the decimal, while `%` sequences are
interpreted as format directives (`%%` becomes `%`, a verb with no
argument left becomes a `(MISSING)` diagnostic, and so on).  That library
rendering is outside this repository and is modelled as the parameter
`sfmt`, applied to the separator and the value. -/
def logMessageString.addInt16 (sfmt : GoStr → Int → GoStr) (m : logMessageString)
    (v : Int) : logMessageString :=
  ⟨m.value ++ sfmt m.separator v, m.separator⟩

/-- Go method `addInt32`: `t.value += fmt.Sprintf("%v"+t.separator, value)`,
with the `Sprintf` rendering modelled as `sfmt` (see `addInt16`). -/
def logMessageString.addInt32 (sfmt : GoStr → Int → GoStr) (m : logMessageString)
    (v : Int) : logMessageString :=
  ⟨m.value ++ sfmt m.separator v, m.separator⟩

/-- Go method `addInt64`: `t.value += fmt.Sprintf("%v"+t.separator, value)`,
with the `Sprintf` rendering modelled as `sfmt` (see `addInt16`). -/
def logMessageString.addInt64 (sfmt : GoStr → Int → GoStr) (m : logMessageString)
    (v : Int) : logMessageString :=
  ⟨m.value ++ sfmt m.separator v, m.separator⟩

/-- Go method `String()`: the accumulated line. -/
def logMessageString.text (m : logMessageString) : GoStr := m.value

/-- Go function `appendValue(b, nBytes, m)`: decode one part's typed payload
at cursor `c` (pointing at the part's key byte) and add it to the record.
Returns the `partSize` payload accounting the caller adds (plus 2) to the
cursor.  The Binary/Image branches only print a "not supported" notice to
stdout (irrelevant here) and skip the payload.  An unrecognized part type
reaches `check(errors.New(...))`, i.e. `log.Fatal`. -/
def appendValue (sfmt : GoStr → Int → GoStr) (b : List Nat) (c : Nat)
    (m : logMessageString) : Except Crash (Nat × logMessageString) :=
  match b[c + 1]? with
  | none => .error .sliceOutOfRange
  | some pt =>
    if pt = PartTypeInt16 then
      match readBytes b (m32 (2 + c)) (m32 (2 + c + 2)) with
      | none => .error .sliceOutOfRange
      | some bs => .ok (2, m.addInt16 sfmt (sint 16 (beNat bs)))
    else if pt = PartTypeInt32 then
      match readBytes b (m32 (c + 2)) (m32 (c + 2 + 4)) with
      | none => .error .sliceOutOfRange
      | some bs => .ok (4, m.addInt32 sfmt (sint 32 (beNat bs)))
    else if pt = PartTypeInt64 then
      match readBytes b (m32 (c + 2)) (m32 (c + 2 + 8)) with
      | none => .error .sliceOutOfRange
      | some bs => .ok (8, m.addInt64 sfmt (sint 64 (beNat bs)))
    else if pt = PartTypeString then
      match uint32At b (m32 (c + 2)) with
      | none => .error .sliceOutOfRange
      | some n =>
        match readBytes b (m32 (c + 6)) (m32 (c + 6 + n)) with
        | none => .error .sliceOutOfRange
        | some d => .ok (m32 (n + 4), m.addString d)
    else if pt = PartTypeBinary then
      match uint32At b (m32 (c + 2)) with
      | none => .error .sliceOutOfRange
      | some n => .ok (m32 (n + 4), m)
    else if pt = PartTypeImage then
      match uint32At b (m32 (c + 2)) with
      | none => .error .sliceOutOfRange
      | some n => .ok (m32 (n + 4), m)
    else .error .fatalUnknownPartType

/-- Go function `skipPart(b, nBytes)`: size of a part's payload without
decoding it.  Only Int32, Int64 and String types are handled; anything
else reaches `check(errors.New(...))`, i.e. `log.Fatal`. -/
def skipPart (b : List Nat) (c : Nat) : Except Crash Nat :=
  match b[c + 1]? with
  | none => .error .sliceOutOfRange
  | some pt =>
    if pt = PartTypeInt32 then .ok 4
    else if pt = PartTypeInt64 then .ok 8
    else if pt = PartTypeString then
      match uint32At b (m32 (c + 2)) with
      | none => .error .sliceOutOfRange
      | some n => .ok (m32 (n + 4))
    else .error .fatalSkipNotHandled

/-- Go function `readDate(b, nBytes)`: decode a `TimestampS` part.  An Int32
payload is rendered as its plain decimal (`fmt.Sprintf("%v", val)`); an
Int64 payload is rendered through `time.Unix` (the `tfmt` parameter); a
String payload is passed verbatim.  Any other type reaches `log.Fatal`. -/
def readDate (tfmt : Int → GoStr) (b : List Nat) (c : Nat) :
    Except Crash (Nat × GoStr) :=
  match b[c + 1]? with
  | none => .error .sliceOutOfRange
  | some pt =>
    if pt = PartTypeInt32 then
      match readBytes b (m32 (c + 2)) (m32 (c + 2 + 4)) with
      | none => .error .sliceOutOfRange
      | some bs => .ok (4, intDecBytes (sint 32 (beNat bs)))
    else if pt = PartTypeInt64 then
      match readBytes b (m32 (c + 2)) (m32 (c + 2 + 8)) with
      | none => .error .sliceOutOfRange
      | some bs => .ok (8, tfmt (sint 64 (beNat bs)))
    else if pt = PartTypeString then
      match uint32At b (m32 (c + 2)) with
      | none => .error .sliceOutOfRange
      | some n =>
        match readBytes b (m32 (c + 6)) (m32 (c + 6 + n)) with
        | none => .error .sliceOutOfRange
        | some d => .ok (m32 (n + 4), d)
    else .error .fatalDateBadType

/-- Keys of the empty `case` arms of the key switch in `NsLoggerParse`
(lines 212 and 215-235): recognized keys whose parts are decoded generically
by `appendValue` (the switch arm sets nothing, so `usedData` stays 0). -/
def emptyCaseKey (k : Nat) : Bool :=
  k == PartKeyMessageType || k == PartKeyTimestampMs || k == PartKeyTimestampUs ||
  k == PartKeyThreadId || k == PartKeyTag || k == PartKeyLevel ||
  k == PartKeyMessage || k == PartKeyImageWidth || k == PartKeyImageHeight ||
  k == PartKeyFilename || k == PartKeyLinenumber || k == PartKeyFunctionname ||
  k == PartKeyClientName || k == PartKeyClientVersion || k == PartKeyOsName ||
  k == PartKeyOsVersion || k == PartKeyClientModel || k == PartKeyUniqueid

/-- Every key the switch in `NsLoggerParse` recognizes (anything else hits
the `default` arm and returns the "Unkown part key" error). -/
def recognizedPartKey (k : Nat) : Bool :=
  k == PartKeyTimestampS || k == PartKeyMessageSeq || emptyCaseKey k

/-- Every part-type value `appendValue` recognizes. -/
def recognizedPartType (t : Nat) : Bool :=
  t == PartTypeString || t == PartTypeBinary || t == PartTypeInt16 ||
  t == PartTypeInt32 || t == PartTypeInt64 || t == PartTypeImage

/-- Result of the key `switch` statement in the inner loop of
`NsLoggerParse`: the `(usedData, formatedValue)` pair, the `default` arm
(`return res, errors.New("Unkown part key")`), or a process termination. -/
inductive SwitchOut where
  | vals (used : Nat) (s : GoStr)
  | unknownKey
  | crash (k : Crash)
  deriving DecidableEq, Repr

/-- The key `switch` of `NsLoggerParse` (lines 211-238): `TimestampS` goes
through `readDate`, `MessageSeq` through `skipPart` (its formatted value
stays empty), the other recognized keys leave `usedData = 0`, and anything
else is the `default` arm. -/
def keySwitch (tfmt : Int → GoStr) (b : List Nat) (c : Nat) (key : Nat) : SwitchOut :=
  if key = PartKeyTimestampS then
    match readDate tfmt b c with
    | .error k => .crash k
    | .ok (u, s) => .vals u s
  else if key = PartKeyMessageSeq then
    match skipPart b c with
    | .error k => .crash k
    | .ok u => .vals u []
  else if emptyCaseKey key then .vals 0 []
  else .unknownKey

/-- Result of the inner part loop: the cursor and record after all parts, or
the unknown-key early return, or a process termination. -/
inductive PartsOut where
  | ok (c : Nat) (m : logMessageString)
  | errKey
  | crash (k : Crash)
  deriving DecidableEq, Repr

/-- The inner `for partCount > 0` loop of `NsLoggerParse` (lines 205-248):
reads the key byte `b[nBytes]`, runs the key switch, then — exactly as the
Go code does — calls `m.addString(formatedValue)` when `usedData != 0` and
`appendValue` otherwise, and advances the cursor by `2 + usedData` in
`uint32` arithmetic. -/
def partLoop (sfmt : GoStr → Int → GoStr) (tfmt : Int → GoStr) (b : List Nat) :
    Nat → Nat → logMessageString → PartsOut
  | 0, c, m => .ok c m
  | pc + 1, c, m =>
    match b[c]? with
    | none => .crash .sliceOutOfRange
    | some key =>
      match keySwitch tfmt b c key with
      | .unknownKey => .errKey
      | .crash k => .crash k
      | .vals used s =>
        if used ≠ 0 then
          partLoop sfmt tfmt b pc (m32 (c + (2 + used))) (m.addString s)
        else
          match appendValue sfmt b c m with
          | .error k => .crash k
          | .ok (u2, m2) => partLoop sfmt tfmt b pc (m32 (c + (2 + u2))) m2

/-- Result of decoding one message frame: its rendered line and the cursor
at which the next 4-byte `totalSize` is read, or the unknown-key early
return, or a process termination. -/
inductive MsgOut where
  | ok (line : GoStr) (c : Nat)
  | errKey
  | crash (k : Crash)
  deriving DecidableEq, Repr

/-- One iteration body of the outer loop of `NsLoggerParse` after the guard
(lines 199-250): advance past the 4-byte length field, read the 2-byte
`partCount`, run the part loop on a fresh `logMessageString{"", separator}`,
and yield `m.String()` as the message's line. -/
def decodeMsg (sfmt : GoStr → Int → GoStr) (tfmt : Int → GoStr) (b : List Nat)
    (sep : GoStr) (c : Nat) : MsgOut :=
  match uint16At b (m32 (c + 4)) with
  | none => .crash .sliceOutOfRange
  | some pc =>
    match partLoop sfmt tfmt b pc (m32 (m32 (c + 4) + 2)) ⟨[], sep⟩ with
    | .errKey => .errKey
    | .crash k => .crash k
    | .ok c2 m => .ok m.text c2

/-- The error value `NsLoggerParse` can return: `errors.New("Unkown part
key")` at line 237. -/
inductive GoErr where
  | unknownPartKey
  deriving DecidableEq, Repr

/-- Observable result of `NsLoggerParse`: a normal `(res, nil)` return, a
`(res, err)` return, a process termination (panic or `log.Fatal`), or fuel
exhaustion (standing in for a non-terminating run of the unbounded Go
loop). -/
inductive Outcome where
  | ok (res : GoStr)
  | err (res : GoStr) (e : GoErr)
  | crash (k : Crash)
  | noFuel
  deriving DecidableEq, Repr

/-- The outer `for nBytes+totalSize < fileSize` loop of `NsLoggerParse`
(lines 195-254).  Each iteration reads the 4-byte big-endian `totalSize` at
the cursor (Go reads it once before the loop and again at line 253; both
reads immediately precede a guard evaluation, so reading at the top of each
iteration is the same control flow), checks the guard in `uint32`
arithmetic, decodes one message, and appends `m.String() + "\n"` to `res`. -/
def parseLoop (sfmt : GoStr → Int → GoStr) (tfmt : Int → GoStr) (b : List Nat)
    (sep : GoStr) : Nat → Nat → GoStr → Outcome
  | 0, _, _ => .noFuel
  | fuel + 1, c, res =>
    match uint32At b c with
    | none => .crash .sliceOutOfRange
    | some t =>
      if m32 (c + t) < m32 b.length then
        match decodeMsg sfmt tfmt b sep c with
        | .errKey => .err res .unknownPartKey
        | .crash k => .crash k
        | .ok line c2 => parseLoop sfmt tfmt b sep fuel c2 (res ++ line ++ [10])
      else .ok res

/-- Go function `NsLoggerParse(b, separator)`. -/
def NsLoggerParse (sfmt : GoStr → Int → GoStr) (tfmt : Int → GoStr)
    (b : List Nat) (sep : GoStr) : Outcome :=
  parseLoop sfmt tfmt b sep (b.length + 1) 0 []

/-- Outcome of the spec-side per-message decomposition: the list of lines of
the messages that were fully decoded, in stream order. -/
inductive ListOut where
  | ok (lines : List GoStr)
  | err (lines : List GoStr)
  | crash (k : Crash)
  | noFuel
  deriving DecidableEq, Repr

/-- Spec-side view of the frame walk, following the spec's words that the
output holds "exactly one complete line for every message that was fully
decoded before the offending part, in stream order": decode messages one at
a time (with the same per-message decoder) and collect their lines as a
list instead of threading one accumulated string. -/
def parseMessages (sfmt : GoStr → Int → GoStr) (tfmt : Int → GoStr)
    (b : List Nat) (sep : GoStr) : Nat → Nat → ListOut
  | 0, _ => .noFuel
  | fuel + 1, c =>
    match uint32At b c with
    | none => .crash .sliceOutOfRange
    | some t =>
      if m32 (c + t) < m32 b.length then
        match decodeMsg sfmt tfmt b sep c with
        | .errKey => .err []
        | .crash k => .crash k
        | .ok line c2 =>
          match parseMessages sfmt tfmt b sep fuel c2 with
          | .ok ls => .ok (line :: ls)
          | .err ls => .err (line :: ls)
          | .crash k => .crash k
          | .noFuel => .noFuel
      else .ok []

/-- Concatenation of a list of lines, each terminated by the newline byte. -/
def linesText : List GoStr → GoStr
  | [] => []
  | l :: ls => l ++ 10 :: linesText ls

/-- Collapsing `uint32` wrap-around below the modulus. -/
theorem m32_eq_of_lt {x : Nat} (h : x < 4294967296) : m32 x = x :=
  Nat.mod_eq_of_lt h

/-- Adding the empty string to a record is a no-op. -/
theorem logMessageString.addString_nil (m : logMessageString) :
    m.addString [] = m := by
  simp [logMessageString.addString]

/-- The accumulated-string frame walk refines the per-message list view:
the one `res` string threaded by `NsLoggerParse` is always the
newline-joined concatenation of the individual message lines. -/
theorem parseLoop_eq_parseMessages (sfmt : GoStr → Int → GoStr)
    (tfmt : Int → GoStr) (b : List Nat) (sep : GoStr) : ∀ fuel c res,
    parseLoop sfmt tfmt b sep fuel c res =
      match parseMessages sfmt tfmt b sep fuel c with
      | .ok ls => .ok (res ++ linesText ls)
      | .err ls => .err (res ++ linesText ls) .unknownPartKey
      | .crash k => .crash k
      | .noFuel => .noFuel := by
  intro fuel
  induction fuel with
  | zero => intro c res; rfl
  | succ fuel ih =>
    intro c res
    rw [parseLoop, parseMessages]
    cases h : uint32At b c with
    | none => rfl
    | some t =>
      by_cases hg : m32 (c + t) < m32 b.length
      · simp only [if_pos hg]
        cases hdm : decodeMsg sfmt tfmt b sep c with
        | errKey => simp [linesText]
        | crash k => rfl
        | ok line c2 =>
          dsimp only
          rw [ih]
          cases parseMessages sfmt tfmt b sep fuel c2 <;>
            simp [linesText, List.append_assoc]
      · simp [if_neg hg, linesText]

/-- Concrete stand-in for the `time.Unix` formatter, used only to
instantiate theorems: it prefixes the decimal rendering with the byte
`88`, so it visibly differs from the plain decimal rendering (as Go's
actual `fmt.Sprintf("%v", time.Unix(val, 0))` output does). -/
def tfmtX : Int → GoStr := fun v => 88 :: intDecBytes v

/-- Concrete stand-in for the `fmt.Sprintf("%v"+separator, value)` output,
used only to instantiate theorems, consistent with Go on every separator
this file uses: for a separator without a `%` byte Sprintf copies it
verbatim after the decimal rendering of the value, and for the separator
`"%%"` (bytes `[37, 37]`) Sprintf treats `%%` as an escape and appends the
decimal followed by the single byte `"%"`. -/
def sfmtX : GoStr → Int → GoStr :=
  fun sep v => if sep = [37, 37] then intDecBytes v ++ [37] else intDecBytes v ++ sep

/-- A fresh record with separator `","`. -/
def msg0 : logMessageString := ⟨[], [44]⟩

/-- Buffer holding one well-formed message: totalSize 6, one part with key
`Message`, type Int16, payload value 5. -/
def wb1 : List Nat := [0, 0, 0, 6, 0, 1, 7, 2, 0, 5]

/-- Buffer whose first declared totalSize 9 already reaches the buffer end
(length 9). -/
def wb9 : List Nat := [0, 0, 0, 9, 9, 9, 9, 9, 9]

/-- Buffer for the C1 counterexample: an empty message (totalSize 2,
partCount 0), then at cursor 6 a totalSize of 4294967295 followed by two
zero bytes; length 12. -/
def cbuf1 : List Nat := [0, 0, 0, 2, 0, 0, 255, 255, 255, 255, 0, 0]

/-- C1 (amended): the outer-loop guard is evaluated in `uint32` arithmetic:
the Frame Walker treats "another message follows" exactly when
`(cursor + totalSize) % 2^32 < bufferLength % 2^32`, and the loop ends —
the final message silently dropped, contributing no output line — exactly
when that wrapped sum reaches or exceeds the (wrapped) buffer length.  For
sums below `2^32` this is the comparison the claim states. -/
theorem c1_frame_guard (sfmt : GoStr → Int → GoStr) (tfmt : Int → GoStr)
    (b : List Nat) (sep : GoStr)
    (fuel c : Nat) (res : GoStr) (t : Nat) (h : uint32At b c = some t) :
    (m32 (c + t) < m32 b.length →
      parseLoop sfmt tfmt b sep (fuel + 1) c res =
        match decodeMsg sfmt tfmt b sep c with
        | .errKey => .err res .unknownPartKey
        | .crash k => .crash k
        | .ok line c2 => parseLoop sfmt tfmt b sep fuel c2 (res ++ line ++ [10])) ∧
    (¬ m32 (c + t) < m32 b.length →
      parseLoop sfmt tfmt b sep (fuel + 1) c res = .ok res) := by
  constructor
  · intro hg
    rw [parseLoop, h]
    simp only [if_pos hg]
  · intro hg
    rw [parseLoop, h]
    simp only [if_neg hg]

/-- Witness for C1: on `wb1` the guard passes (6 < 10) and the walker
decodes the message; on `wb9` the declared size reaches the buffer end
(9 ≥ 9) and the walker returns the accumulated output unchanged. -/
theorem c1_frame_guard_witness :
    (uint32At wb1 0 = some 6 ∧ m32 (0 + 6) < m32 wb1.length ∧
      parseLoop sfmtX tfmtX wb1 [44] (0 + 1) 0 [] =
        match decodeMsg sfmtX tfmtX wb1 [44] 0 with
        | .errKey => .err [] .unknownPartKey
        | .crash k => .crash k
        | .ok line c2 => parseLoop sfmtX tfmtX wb1 [44] 0 c2 ([] ++ line ++ [10])) ∧
    (uint32At wb9 0 = some 9 ∧ ¬ m32 (0 + 9) < m32 wb9.length ∧
      parseLoop sfmtX tfmtX wb9 [44] (0 + 1) 0 [] = .ok []) :=
  ⟨⟨by decide, by decide,
      (c1_frame_guard sfmtX tfmtX wb1 [44] 0 0 [] 6 (by decide)).1 (by decide)⟩,
    ⟨by decide, by decide,
      (c1_frame_guard sfmtX tfmtX wb9 [44] 0 0 [] 9 (by decide)).2 (by decide)⟩⟩

/-- C1 counterexample: in `cbuf1` the message starting at cursor 6 declares
totalSize 4294967295, so its extent exceeds the 12-byte buffer end and the
claim says it is silently dropped — the parse would return just the first
message's line `"\n"`.  Instead the `uint32` sum `6 + 4294967295` wraps to
5, the guard `5 < 12` passes, the phantom message is decoded and the parse
then crashes reading the next length field. -/
theorem c1_counterexample :
    uint32At cbuf1 6 = some 4294967295 ∧
    cbuf1.length = 12 ∧
    ¬ 6 + 4294967295 < 12 ∧
    NsLoggerParse sfmtX tfmtX cbuf1 [44] = .crash .sliceOutOfRange ∧
    NsLoggerParse sfmtX tfmtX cbuf1 [44] ≠ .ok [10] := by
  refine ⟨by decide, by decide, by decide, by decide, by decide⟩

/-- C2 (amended): a `TimestampS` part is decoded by type, but only the
Int64 branch applies date formatting (`time.Unix`, the `tfmt` parameter);
an Int32 payload is rendered as the plain decimal of the integer, and a
String payload is passed through verbatim.  The consumed payload byte
counts are 4, 8 and `(4 + n) % 2^32` respectively. -/
theorem c2_readDate (tfmt : Int → GoStr) (b : List Nat) (c : Nat) :
    (∀ bs, b[c + 1]? = some PartTypeInt32 →
      readBytes b (m32 (c + 2)) (m32 (c + 2 + 4)) = some bs →
      readDate tfmt b c = .ok (4, intDecBytes (sint 32 (beNat bs)))) ∧
    (∀ bs, b[c + 1]? = some PartTypeInt64 →
      readBytes b (m32 (c + 2)) (m32 (c + 2 + 8)) = some bs →
      readDate tfmt b c = .ok (8, tfmt (sint 64 (beNat bs)))) ∧
    (∀ n d, b[c + 1]? = some PartTypeString →
      uint32At b (m32 (c + 2)) = some n →
      readBytes b (m32 (c + 6)) (m32 (c + 6 + n)) = some d →
      readDate tfmt b c = .ok (m32 (n + 4), d)) := by
  refine ⟨?_, ?_, ?_⟩
  · intro bs h1 h2
    simp [readDate, h1, h2, PartTypeInt32]
  · intro bs h1 h2
    simp [readDate, h1, h2, PartTypeInt32, PartTypeInt64]
  · intro n d h1 h2 h3
    simp [readDate, h1, h2, h3, PartTypeInt32, PartTypeInt64, PartTypeString]

/-- Witness for C2: an Int32 timestamp renders as the decimal `"7"`, an
Int64 timestamp goes through the date formatter, and a String timestamp is
passed verbatim, with consumed counts 4, 8 and 4+2. -/
theorem c2_readDate_witness :
    (readDate tfmtX [1, 3, 0, 0, 0, 7] 0 = .ok (4, intDecBytes (sint 32 (beNat [0, 0, 0, 7])))) ∧
    (readDate tfmtX [1, 4, 0, 0, 0, 0, 0, 0, 0, 7] 0 = .ok (8, tfmtX (sint 64 (beNat [0, 0, 0, 0, 0, 0, 0, 7])))) ∧
    (readDate tfmtX [1, 0, 0, 0, 0, 2, 104, 105] 0 = .ok (m32 (2 + 4), [104, 105])) :=
  ⟨(c2_readDate tfmtX [1, 3, 0, 0, 0, 7] 0).1 [0, 0, 0, 7] (by decide) (by decide),
    (c2_readDate tfmtX [1, 4, 0, 0, 0, 0, 0, 0, 0, 7] 0).2.1 [0, 0, 0, 0, 0, 0, 0, 7] (by decide) (by decide),
    (c2_readDate tfmtX [1, 0, 0, 0, 0, 2, 104, 105] 0).2.2 2 [104, 105] (by decide) (by decide) (by decide)⟩

/-- C2 counterexample: a `TimestampS` part of type Int32 with payload 7 is
rendered as the decimal byte string `"7"`, not as the output of the
date/time formatter — `readDate` never applies `time.Unix` in its Int32
branch, contradicting the claim that a 4-byte integer is rendered as a
human-readable date/time string. -/
theorem c2_counterexample :
    readDate tfmtX [1, 3, 0, 0, 0, 7] 0 = .ok (4, intDecBytes 7) ∧
    intDecBytes 7 ≠ tfmtX 7 := by
  refine ⟨by decide, by decide⟩

/-- C3 (amended): for a `MessageSeq` part of type Int32 or Int64 the inner
loop advances the cursor by the part's true byte length (2-byte header plus
4 or 8 payload bytes) while leaving the record unchanged, so the value
never appears in the rendered output and framing of subsequent parts is
preserved.  For type String with declared length `n` the same holds with
advance `2 + ((4+n) % 2^32)` — but only when `(n+4) % 2^32 ≠ 0`: at
`n = 2^32 - 4` `skipPart` returns 0 after the `uint32` wrap, the
`usedData != 0` sentinel check fails, and the Go code falls through into
`appendValue` (which re-reads the part generically and, on the wrapped
payload slice, panics).  For any other part type — Int16, Binary, Image —
`skipPart` reaches `log.Fatal` instead; see the counterexample. -/
theorem c3_messageSeq_skipped (sfmt : GoStr → Int → GoStr)
    (tfmt : Int → GoStr) (b : List Nat) (pc c : Nat)
    (m : logMessageString) (hk : b[c]? = some PartKeyMessageSeq) :
    (b[c + 1]? = some PartTypeInt32 →
      partLoop sfmt tfmt b (pc + 1) c m =
        partLoop sfmt tfmt b pc (m32 (c + (2 + 4))) m) ∧
    (b[c + 1]? = some PartTypeInt64 →
      partLoop sfmt tfmt b (pc + 1) c m =
        partLoop sfmt tfmt b pc (m32 (c + (2 + 8))) m) ∧
    (∀ n, b[c + 1]? = some PartTypeString →
      uint32At b (m32 (c + 2)) = some n → m32 (n + 4) ≠ 0 →
      partLoop sfmt tfmt b (pc + 1) c m =
        partLoop sfmt tfmt b pc (m32 (c + (2 + m32 (n + 4)))) m) ∧
    (∀ n, b[c + 1]? = some PartTypeString →
      uint32At b (m32 (c + 2)) = some n → m32 (n + 4) = 0 →
      partLoop sfmt tfmt b (pc + 1) c m =
        match appendValue sfmt b c m with
        | .error k => .crash k
        | .ok (u2, m2) => partLoop sfmt tfmt b pc (m32 (c + (2 + u2))) m2) := by
  refine ⟨?_, ?_, ?_, ?_⟩
  · intro ht
    rw [partLoop, hk]
    simp [keySwitch, skipPart, ht, PartKeyTimestampS, PartKeyMessageSeq,
      PartTypeInt32, logMessageString.addString_nil]
  · intro ht
    rw [partLoop, hk]
    simp [keySwitch, skipPart, ht, PartKeyTimestampS, PartKeyMessageSeq,
      PartTypeInt32, PartTypeInt64, logMessageString.addString_nil]
  · intro n ht hn hnz
    rw [partLoop, hk]
    simp [keySwitch, skipPart, ht, hn, hnz, PartKeyTimestampS, PartKeyMessageSeq,
      PartTypeInt32, PartTypeInt64, PartTypeString, logMessageString.addString_nil]
  · intro n ht hn hz
    rw [partLoop, hk]
    simp [keySwitch, skipPart, ht, hn, hz, PartKeyTimestampS, PartKeyMessageSeq,
      PartTypeInt32, PartTypeInt64, PartTypeString]

/-- Buffer whose single part is a `MessageSeq` String part declaring
length 2^32 - 4, the length at which `skipPart`'s `uint32` accounting
wraps to 0. -/
def wrapSeqBuf : List Nat := [10, 0, 255, 255, 255, 252]

/-- Witness for C3: a `MessageSeq` part of type Int32 at cursor 0 is
stepped over — the record is unchanged and the cursor advances by 6 — and
a `MessageSeq` String part declaring length 2^32 - 4 falls through into
`appendValue` (here: the wrapped payload slice panics). -/
theorem c3_messageSeq_skipped_witness :
    ((([10, 3, 0, 0, 0, 0] : List Nat)[0 + 1]? = some PartTypeInt32) ∧
      partLoop sfmtX tfmtX [10, 3, 0, 0, 0, 0] (0 + 1) 0 msg0 =
        partLoop sfmtX tfmtX [10, 3, 0, 0, 0, 0] 0 (m32 (0 + (2 + 4))) msg0) ∧
    (wrapSeqBuf[0 + 1]? = some PartTypeString ∧
      uint32At wrapSeqBuf (m32 (0 + 2)) = some 4294967292 ∧
      m32 (4294967292 + 4) = 0 ∧
      partLoop sfmtX tfmtX wrapSeqBuf (0 + 1) 0 msg0 =
        match appendValue sfmtX wrapSeqBuf 0 msg0 with
        | .error k => .crash k
        | .ok (u2, m2) => partLoop sfmtX tfmtX wrapSeqBuf 0 (m32 (0 + (2 + u2))) m2) :=
  ⟨⟨by decide,
      (c3_messageSeq_skipped sfmtX tfmtX [10, 3, 0, 0, 0, 0] 0 0 msg0
        (by decide)).1 (by decide)⟩,
    ⟨by decide, by decide, by decide,
      (c3_messageSeq_skipped sfmtX tfmtX wrapSeqBuf 0 0 msg0
        (by decide)).2.2.2 4294967292 (by decide) (by decide) (by decide)⟩⟩

/-- C3 counterexample: the claim quantifies over every recognized part
type, but a `MessageSeq` part of the recognized type Int16 is not stepped
over — `skipPart` has no Int16 branch and reaches `check`/`log.Fatal`,
terminating the process; and a `MessageSeq` String part declaring length
2^32 - 4 (buffer `[0,0,0,8,0,1,10,0,255,255,255,252]`) makes `skipPart`
return 0, so Go falls through into `appendValue` and panics on the wrapped
slice `b[12:8]` instead of advancing the cursor by the part's length. -/
theorem c3_counterexample :
    skipPart [10, 2] 0 = .error .fatalSkipNotHandled ∧
    NsLoggerParse sfmtX tfmtX [0, 0, 0, 6, 0, 1, 10, 2, 0, 5] [44] =
      .crash .fatalSkipNotHandled ∧
    NsLoggerParse sfmtX tfmtX [0, 0, 0, 8, 0, 1, 10, 0, 255, 255, 255, 252] [44] =
      .crash .sliceOutOfRange := by
  refine ⟨by decide, by decide, by decide⟩

/-- C4 (amended): an unrecognized part type makes `appendValue` reach
`check`/`log.Fatal` (process termination), a `TimestampS` part whose type
is not Int32/Int64/String makes `readDate` do the same, and a crash inside
a message propagates as the parse's own termination — these decode errors
are not surfaced to the caller of `NsLoggerParse` as a returned failure
(only the unknown-key error is; see C5). -/
theorem c4_fatal_decode_errors :
    (∀ (sfmt : GoStr → Int → GoStr) (b : List Nat) (c : Nat)
      (m : logMessageString) (pt : Nat),
      b[c + 1]? = some pt → recognizedPartType pt = false →
      appendValue sfmt b c m = .error .fatalUnknownPartType) ∧
    (∀ (tfmt : Int → GoStr) (b : List Nat) (c pt : Nat),
      b[c + 1]? = some pt → pt ≠ PartTypeInt32 → pt ≠ PartTypeInt64 →
      pt ≠ PartTypeString →
      readDate tfmt b c = .error .fatalDateBadType) ∧
    (∀ (sfmt : GoStr → Int → GoStr) (tfmt : Int → GoStr) (b : List Nat)
      (sep : GoStr) (fuel c : Nat) (res : GoStr) (t : Nat) (k : Crash),
      uint32At b c = some t → m32 (c + t) < m32 b.length →
      decodeMsg sfmt tfmt b sep c = .crash k →
      parseLoop sfmt tfmt b sep (fuel + 1) c res = .crash k) := by
  refine ⟨?_, ?_, ?_⟩
  · intro sfmt b c m pt hpt hr
    simp only [recognizedPartType, Bool.or_eq_false_iff, beq_eq_false_iff_ne,
      ne_eq] at hr
    obtain ⟨⟨⟨⟨⟨h0, h1⟩, h2⟩, h3⟩, h4⟩, h5⟩ := hr
    simp only [PartTypeString, PartTypeBinary, PartTypeInt16, PartTypeInt32,
      PartTypeInt64, PartTypeImage] at h0 h1 h2 h3 h4 h5
    simp [appendValue, hpt, PartTypeString, PartTypeBinary, PartTypeInt16,
      PartTypeInt32, PartTypeInt64, PartTypeImage, h0, h1, h2, h3, h4, h5]
  · intro tfmt b c pt hpt h3 h4 h0
    simp only [PartTypeInt32, PartTypeInt64, PartTypeString] at h3 h4 h0
    simp [readDate, hpt, PartTypeInt32, PartTypeInt64, PartTypeString, h3, h4, h0]
  · intro sfmt tfmt b sep fuel c res t k ht hg hdm
    rw [parseLoop, ht]
    simp only [if_pos hg, hdm]

/-- Witness for C4: a part of the unknown type 9 makes `appendValue`
fatal, a `TimestampS` part of type Int16 makes `readDate` fatal, and a
buffer containing the former crashes the whole parse. -/
theorem c4_fatal_decode_errors_witness :
    appendValue sfmtX [0, 9] 0 msg0 = .error .fatalUnknownPartType ∧
    readDate tfmtX [1, 2] 0 = .error .fatalDateBadType ∧
    parseLoop sfmtX tfmtX [0, 0, 0, 4, 0, 1, 0, 9] [44] (0 + 1) 0 [] =
      .crash .fatalUnknownPartType :=
  ⟨c4_fatal_decode_errors.1 sfmtX [0, 9] 0 msg0 9 (by decide) (by decide),
    c4_fatal_decode_errors.2.1 tfmtX [1, 2] 0 2 (by decide) (by decide) (by decide) (by decide),
    c4_fatal_decode_errors.2.2 sfmtX tfmtX [0, 0, 0, 4, 0, 1, 0, 9] [44] 0 0 [] 4
      .fatalUnknownPartType (by decide) (by decide) (by decide)⟩

/-- C4 counterexample: a part with the unknown type byte 9, and a
`TimestampS` part with the invalid type Int16, both terminate the process
through `check`/`log.Fatal` — `NsLoggerParse` never returns these to the
caller as a typed failure, contradicting the claim's propagation policy. -/
theorem c4_counterexample :
    NsLoggerParse sfmtX tfmtX [0, 0, 0, 4, 0, 1, 0, 9] [44] =
      .crash .fatalUnknownPartType ∧
    NsLoggerParse sfmtX tfmtX [0, 0, 0, 4, 0, 1, 1, 2] [44] =
      .crash .fatalDateBadType := by
  refine ⟨by decide, by decide⟩

/-- C5: a part key outside the recognized set (including the user-defined
range at and above 100) makes the inner loop return immediately through the
`default` arm, and the whole parse then returns the accumulated output so
far together with the "Unkown part key" error — no line is emitted for the
message containing the offending part and nothing further is decoded. -/
theorem c5_unknown_key_aborts :
    (∀ (sfmt : GoStr → Int → GoStr) (tfmt : Int → GoStr) (b : List Nat)
      (pc c : Nat) (m : logMessageString) (k : Nat),
      b[c]? = some k → recognizedPartKey k = false →
      partLoop sfmt tfmt b (pc + 1) c m = .errKey) ∧
    (∀ (sfmt : GoStr → Int → GoStr) (tfmt : Int → GoStr) (b : List Nat)
      (sep : GoStr) (fuel c : Nat) (res : GoStr) (t pc : Nat),
      uint32At b c = some t → m32 (c + t) < m32 b.length →
      uint16At b (m32 (c + 4)) = some pc →
      partLoop sfmt tfmt b pc (m32 (m32 (c + 4) + 2)) ⟨[], sep⟩ = .errKey →
      parseLoop sfmt tfmt b sep (fuel + 1) c res = .err res .unknownPartKey) := by
  constructor
  · intro sfmt tfmt b pc c m k hk hr
    simp only [recognizedPartKey, Bool.or_eq_false_iff, beq_eq_false_iff_ne,
      ne_eq] at hr
    obtain ⟨⟨h1, h10⟩, hek⟩ := hr
    simp only [PartKeyTimestampS, PartKeyMessageSeq] at h1 h10
    rw [partLoop, hk]
    simp [keySwitch, PartKeyTimestampS, PartKeyMessageSeq, h1, h10, hek]
  · intro sfmt tfmt b sep fuel c res t pc ht hg hpc hpl
    rw [parseLoop, ht]
    simp only [if_pos hg, decodeMsg, hpc, hpl]

/-- Witness for C5: the unrecognized key 100 (first byte of the
user-defined range) aborts the part loop, and a buffer whose single
message contains it makes `NsLoggerParse` return the error with the empty
output accumulated so far. -/
theorem c5_unknown_key_aborts_witness :
    partLoop sfmtX tfmtX [100] (0 + 1) 0 msg0 = .errKey ∧
    parseLoop sfmtX tfmtX [0, 0, 0, 3, 0, 1, 100] [44] (0 + 1) 0 [] =
      .err [] .unknownPartKey :=
  ⟨c5_unknown_key_aborts.1 sfmtX tfmtX [100] 0 0 msg0 100 (by decide) (by decide),
    c5_unknown_key_aborts.2 sfmtX tfmtX [0, 0, 0, 3, 0, 1, 100] [44] 0 0 [] 3 1
      (by decide) (by decide) (by decide) (by decide)⟩

/-- C6 (amended): decoding a String-typed part whose payload is a 4-byte
big-endian length `n` followed by `n` payload bytes `d` yields exactly `d`
and the consumed payload count `4 + n` (so the caller advances the cursor
by `2 + 4 + n`), provided the `uint32` index arithmetic does not wrap,
i.e. `cursor + 6 + n < 2^32`.  (For `n ≥ 2^32 - 4` the slice bounds wrap
and Go panics instead; see the counterexample.) -/
theorem c6_string_roundtrip (sfmt : GoStr → Int → GoStr) (b : List Nat)
    (c : Nat) (m : logMessageString)
    (n : Nat) (d : List Nat)
    (hpt : b[c + 1]? = some PartTypeString)
    (hn : uint32At b (m32 (c + 2)) = some n)
    (hd : readBytes b (c + 6) (c + 6 + n) = some d)
    (hw : c + 6 + n < 4294967296) :
    appendValue sfmt b c m = .ok (n + 4, m.addString d) := by
  have h6 : m32 (c + 6) = c + 6 := m32_eq_of_lt (by omega)
  have h6n : m32 (c + 6 + n) = c + 6 + n := m32_eq_of_lt hw
  have hn4 : m32 (n + 4) = n + 4 := m32_eq_of_lt (by omega)
  simp [appendValue, hpt, PartTypeInt16, PartTypeInt32, PartTypeInt64,
    PartTypeString, hn, h6, h6n, hd, hn4]

/-- Witness for C6: the 5-byte payload `"hello"` with length prefix 5
round-trips and reports a consumed count of 9. -/
theorem c6_string_roundtrip_witness :
    appendValue sfmtX [7, 0, 0, 0, 0, 5, 104, 101, 108, 108, 111] 0 msg0 =
      .ok (5 + 4, msg0.addString [104, 101, 108, 108, 111]) :=
  c6_string_roundtrip sfmtX [7, 0, 0, 0, 0, 5, 104, 101, 108, 108, 111] 0 msg0 5
    [104, 101, 108, 108, 111] (by decide) (by decide) (by decide) (by decide)

/-- C7 (amended): a Binary- or Image-typed part with declared payload
length `n` is skipped without decoding and without touching the record,
and the consumed payload count is `4 + n` — computed as `(n + 4) % 2^32`,
so it equals `4 + n` exactly when `n + 4 < 2^32`.  (For `n ≥ 2^32 - 4` the
`partSize += 4` wraps; see the counterexample.) -/
theorem c7_binary_image_skipped (sfmt : GoStr → Int → GoStr) (b : List Nat)
    (c : Nat) (m : logMessageString) (pt n : Nat)
    (hpt : b[c + 1]? = some pt)
    (hbi : pt = PartTypeBinary ∨ pt = PartTypeImage)
    (hn : uint32At b (m32 (c + 2)) = some n)
    (hw : n + 4 < 4294967296) :
    appendValue sfmt b c m = .ok (n + 4, m) := by
  cases hbi with
  | inl h =>
    subst h
    simp [appendValue, hpt, PartTypeInt16, PartTypeInt32, PartTypeInt64,
      PartTypeString, PartTypeBinary, hn, m32_eq_of_lt hw]
  | inr h =>
    subst h
    simp [appendValue, hpt, PartTypeInt16, PartTypeInt32, PartTypeInt64,
      PartTypeString, PartTypeBinary, PartTypeImage, hn, m32_eq_of_lt hw]

/-- Witness for C7: a Binary part with declared length 0 advances by
exactly the 4 length-field bytes and appends nothing to the record. -/
theorem c7_binary_image_skipped_witness :
    appendValue sfmtX [7, 1, 0, 0, 0, 0] 0 msg0 = .ok (0 + 4, msg0) :=
  c7_binary_image_skipped sfmtX [7, 1, 0, 0, 0, 0] 0 msg0 1 0 (by decide)
    (Or.inl (by decide)) (by decide) (by decide)

/-- C7 counterexample: a Binary part declaring the payload length
4294967295 = 2^32 - 1 makes the `uint32` accounting `partSize += 4` wrap:
`appendValue` reports a consumed count of 3, not 4 + 4294967295, so the
claim's "exactly 4 + n" fails at this part. -/
theorem c7_counterexample :
    appendValue sfmtX [7, 1, 255, 255, 255, 255] 0 msg0 = .ok (3, msg0) ∧
    (3 : Nat) ≠ 4 + 4294967295 := by
  refine ⟨by decide, by decide⟩

/-- C8 (amended): the Record Accumulator suppresses empty string values
(adding the empty string leaves the line unchanged, emitting no stray
separator); the numeric methods always append
`fmt.Sprintf("%v"+separator, value)`, which equals the decimal rendering
followed by the separator whenever the separator contains no `%` byte
(as the default `","` does) — in particular the value 0 renders as the
byte `"0"`.  A separator containing `%` is interpreted by `Sprintf` as
format directives and is not appended verbatim (see the counterexample). -/
theorem c8_accumulator (sfmt : GoStr → Int → GoStr)
    (hs : ∀ (sep : GoStr) (v : Int), (37 : Nat) ∉ sep →
      sfmt sep v = intDecBytes v ++ sep)
    (m : logMessageString) (hsep : (37 : Nat) ∉ m.separator) :
    m.addString [] = m ∧
    (∀ i : Int,
      m.addInt16 sfmt i = ⟨m.value ++ intDecBytes i ++ m.separator, m.separator⟩ ∧
      m.addInt32 sfmt i = ⟨m.value ++ intDecBytes i ++ m.separator, m.separator⟩ ∧
      m.addInt64 sfmt i = ⟨m.value ++ intDecBytes i ++ m.separator, m.separator⟩) ∧
    intDecBytes 0 = [48] := by
  refine ⟨logMessageString.addString_nil m, ?_, by decide⟩
  intro i
  refine ⟨?_, ?_, ?_⟩ <;>
    simp [logMessageString.addInt16, logMessageString.addInt32,
      logMessageString.addInt64, hs m.separator i hsep]

/-- Witness for C8: with the sample `Sprintf` output and the default
separator `","` (which contains no `%` byte), the numeric methods append
decimal-then-separator and the empty string is suppressed. -/
theorem c8_accumulator_witness :
    ((37 : Nat) ∉ ([44] : GoStr)) ∧
    (msg0.addString [] = msg0 ∧
      (∀ i : Int,
        msg0.addInt16 sfmtX i = ⟨msg0.value ++ intDecBytes i ++ msg0.separator, msg0.separator⟩ ∧
        msg0.addInt32 sfmtX i = ⟨msg0.value ++ intDecBytes i ++ msg0.separator, msg0.separator⟩ ∧
        msg0.addInt64 sfmtX i = ⟨msg0.value ++ intDecBytes i ++ msg0.separator, msg0.separator⟩) ∧
      intDecBytes 0 = [48]) :=
  ⟨by decide,
    c8_accumulator sfmtX
      (by
        intro sep v h
        have hne : sep ≠ [37, 37] := by
          intro he
          exact h (he ▸ (by decide : (37 : Nat) ∈ ([37, 37] : GoStr)))
        simp [sfmtX, hne])
      msg0 (by decide)⟩

/-- C8 counterexample: with the separator `"%%"` (bytes `[37, 37]`), Go's
`fmt.Sprintf("%v"+t.separator, 5)` yields `"5%"` — the `%%` in the spliced
format string is an escape — so the appended text is not the decimal
rendering followed by the separator, refuting the claim's "always appends
its decimal rendering followed by the separator" for `%`-containing
separators.  `sfmtX` embodies exactly this Go output on `"%%"`. -/
theorem c8_counterexample :
    (logMessageString.addInt32 sfmtX ⟨[], [37, 37]⟩ 5).value = [53, 37] ∧
    ([53, 37] : GoStr) ≠ ([] : GoStr) ++ intDecBytes 5 ++ [37, 37] := by
  refine ⟨by decide, by decide⟩

/-- Buffer for the C9 counterexample: first totalSize 11 demands 15 bytes
but the buffer has 12, yet the guard `11 < 12` passes; an empty message is
decoded and the next declared size 9 fails the guard (6 + 9 ≥ 12). -/
def cbuf9 : List Nat := [0, 0, 0, 11, 0, 0, 0, 0, 0, 9, 7, 7]

/-- C9 (amended): a buffer shorter than 4 bytes (including the empty
buffer) makes `NsLoggerParse` panic on the initial out-of-range 4-byte
read — it does not return a defined result; a buffer whose first
`totalSize` satisfies `(cursor + totalSize) % 2^32 ≥ length % 2^32` yields
the empty output with no error (the silent-empty case); and a buffer
shorter than the first message's declared extent whose totalSize is still
below the buffer length is parsed anyway (see the counterexample). -/
theorem c9_short_buffer (sfmt : GoStr → Int → GoStr) (tfmt : Int → GoStr)
    (b : List Nat) (sep : GoStr) :
    (b.length < 4 → NsLoggerParse sfmt tfmt b sep = .crash .sliceOutOfRange) ∧
    (∀ t, uint32At b 0 = some t → ¬ m32 (0 + t) < m32 b.length →
      NsLoggerParse sfmt tfmt b sep = .ok []) := by
  constructor
  · intro hlen
    have h0 : uint32At b 0 = none := by
      unfold uint32At readBytes
      rw [if_neg]
      · rfl
      · rintro ⟨-, h4⟩
        have : m32 (0 + 4) = 4 := by decide
        omega
    rw [NsLoggerParse, parseLoop, h0]
  · intro t ht hg
    rw [NsLoggerParse, parseLoop, ht]
    simp only [if_neg hg]

/-- Witness for C9: the empty buffer crashes on the initial read, and a
9-byte buffer declaring totalSize 9 returns empty output with no error. -/
theorem c9_short_buffer_witness :
    (([] : List Nat).length < 4 ∧
      NsLoggerParse sfmtX tfmtX [] [44] = .crash .sliceOutOfRange) ∧
    (uint32At wb9 0 = some 9 ∧ ¬ m32 (0 + 9) < m32 wb9.length ∧
      NsLoggerParse sfmtX tfmtX wb9 [44] = .ok []) :=
  ⟨⟨by decide, (c9_short_buffer sfmtX tfmtX [] [44]).1 (by decide)⟩,
    ⟨by decide, by decide,
      (c9_short_buffer sfmtX tfmtX wb9 [44]).2 9 (by decide) (by decide)⟩⟩

/-- C9 counterexample: the empty buffer does not produce a defined result —
`NsLoggerParse` panics on the out-of-range initial 4-byte read; and `cbuf9`,
a buffer shorter than what its first totalSize (11, demanding 15 bytes of
12) declares, returns the non-empty output `"\n"` with no error — neither
of the two defined results the claim permits. -/
theorem c9_counterexample :
    NsLoggerParse sfmtX tfmtX [] [44] = .crash .sliceOutOfRange ∧
    NsLoggerParse sfmtX tfmtX cbuf9 [44] = .ok [10] ∧
    cbuf9.length < 4 + 11 := by
  refine ⟨by decide, by decide, by decide⟩

/-- C10: whenever `NsLoggerParse` returns the unknown-part-key error, the
text returned alongside it is exactly the newline-terminated lines of the
messages that were fully decoded before the offending part, in stream
order — earlier messages' output is preserved with the error. -/
theorem c10_error_preserves_lines (sfmt : GoStr → Int → GoStr)
    (tfmt : Int → GoStr) (b : List Nat) (sep r : GoStr)
    (h : NsLoggerParse sfmt tfmt b sep = .err r .unknownPartKey) :
    ∃ ls, parseMessages sfmt tfmt b sep (b.length + 1) 0 = .err ls ∧
      r = linesText ls := by
  rw [NsLoggerParse, parseLoop_eq_parseMessages] at h
  cases hm : parseMessages sfmt tfmt b sep (b.length + 1) 0 <;> rw [hm] at h <;>
    simp_all

/-- Buffer for the C10 witness: one fully decodable message (line `"5,"`),
then a message whose part has the unrecognized key 99. -/
def wbuf10 : List Nat :=
  [0, 0, 0, 6, 0, 1, 7, 2, 0, 5, 0, 0, 0, 4, 0, 1, 99, 0]

/-- Witness for C10: on `wbuf10` the parse fails with the unknown-key
error and the returned text `"5,\n"` is the newline-joined list of the one
fully decoded message line. -/
theorem c10_error_preserves_lines_witness :
    NsLoggerParse sfmtX tfmtX wbuf10 [44] = .err [53, 44, 10] .unknownPartKey ∧
    ∃ ls, parseMessages sfmtX tfmtX wbuf10 [44] (wbuf10.length + 1) 0 = .err ls ∧
      ([53, 44, 10] : GoStr) = linesText ls :=
  ⟨by decide,
    c10_error_preserves_lines sfmtX tfmtX wbuf10 [44] [53, 44, 10] (by decide)⟩

/-- A String part whose payload slice bounds fail Go's bounds check makes
`appendValue` panic. -/
theorem appendValue_string_oob (sfmt : GoStr → Int → GoStr) (b : List Nat)
    (c : Nat) (m : logMessageString)
    (n : Nat) (hpt : b[c + 1]? = some PartTypeString)
    (hn : uint32At b (m32 (c + 2)) = some n)
    (hnone : readBytes b (m32 (c + 6)) (m32 (c + 6 + n)) = none) :
    appendValue sfmt b c m = .error .sliceOutOfRange := by
  simp [appendValue, hpt, PartTypeInt16, PartTypeInt32, PartTypeInt64,
    PartTypeString, hn, hnone]

/-- Buffer for the C6 counterexample: a String part declaring (and, in the
buffer, actually carrying) a payload of 4294967295 = 2^32 - 1 zero bytes. -/
def bigStrBuf : List Nat :=
  7 :: 0 :: 255 :: 255 :: 255 :: 255 :: List.replicate 4294967295 0

/-- Length of the C6 counterexample buffer. -/
theorem bigStrBuf_length : bigStrBuf.length = 4294967301 := by
  show (7 :: 0 :: 255 :: 255 :: 255 :: 255 ::
    List.replicate 4294967295 (0 : Nat)).length = 4294967301
  rw [List.length_cons, List.length_cons, List.length_cons, List.length_cons,
    List.length_cons, List.length_cons, List.length_replicate]

/-- The type byte of the C6 counterexample part is String. -/
theorem bigStrBuf_get1 : bigStrBuf[0 + 1]? = some 0 := by
  show (7 :: 0 :: 255 :: 255 :: 255 :: 255 ::
    List.replicate 4294967295 (0 : Nat))[0 + 1]? = some 0
  rw [List.getElem?_cons_succ, List.getElem?_cons_zero]

/-- The 4-byte length field of the C6 counterexample part reads
4294967295. -/
theorem bigStrBuf_lenfield : uint32At bigStrBuf (m32 (0 + 2)) = some 4294967295 := by
  have hm2 : m32 (0 + 2) = 2 := by decide
  have hm6 : m32 (2 + 4) = 6 := by decide
  have hcond : 2 ≤ 6 ∧ 6 ≤ bigStrBuf.length :=
    ⟨by norm_num, by rw [bigStrBuf_length]; norm_num⟩
  rw [hm2, uint32At, hm6, readBytes, if_pos hcond]
  show some (beNat ((bigStrBuf.drop 2).take (6 - 2))) = some 4294967295
  have hdrop : bigStrBuf.drop 2 =
      255 :: 255 :: 255 :: 255 :: List.replicate 4294967295 0 := by
    show (7 :: 0 :: 255 :: 255 :: 255 :: 255 ::
      List.replicate 4294967295 (0 : Nat)).drop 2 = _
    rw [List.drop_succ_cons, List.drop_succ_cons, List.drop_zero]
  rw [hdrop]
  rfl

/-- The declared payload really is present in the C6 counterexample
buffer: the 4294967295 bytes after the length field. -/
theorem bigStrBuf_payload :
    readBytes bigStrBuf (0 + 6) (0 + 6 + 4294967295) =
      some (List.replicate 4294967295 0) := by
  have hcond : 0 + 6 ≤ 0 + 6 + 4294967295 ∧ 0 + 6 + 4294967295 ≤ bigStrBuf.length :=
    ⟨Nat.le_add_right _ _, by rw [bigStrBuf_length]⟩
  rw [readBytes, if_pos hcond]
  have hdrop : bigStrBuf.drop (0 + 6) = List.replicate 4294967295 0 := by
    show (7 :: 0 :: 255 :: 255 :: 255 :: 255 ::
      List.replicate 4294967295 (0 : Nat)).drop (0 + 6) = _
    rw [show (0 + 6 : Nat) = 6 from rfl, List.drop_succ_cons, List.drop_succ_cons,
      List.drop_succ_cons, List.drop_succ_cons, List.drop_succ_cons,
      List.drop_succ_cons, List.drop_zero]
  have harith : 0 + 6 + 4294967295 - (0 + 6) = 4294967295 := by norm_num
  rw [hdrop, harith,
    List.take_of_length_le (le_of_eq (List.length_replicate 4294967295 0))]

/-- C6 counterexample: a String part with declared length
n = 4294967295 = 2^32 - 1 whose payload bytes are all present in the
buffer.  The claim demands the decode yield the payload with consumed
count 4 + n; instead the `uint32` slice expression `nBytes + 6 + partSize`
wraps to 5, the slice lower bound 6 exceeds its upper bound, and Go
panics — so the round-trip fails for this n. -/
theorem c6_counterexample :
    bigStrBuf[0 + 1]? = some PartTypeString ∧
    uint32At bigStrBuf (m32 (0 + 2)) = some 4294967295 ∧
    readBytes bigStrBuf (0 + 6) (0 + 6 + 4294967295) =
      some (List.replicate 4294967295 0) ∧
    appendValue sfmtX bigStrBuf 0 msg0 = .error .sliceOutOfRange := by
  refine ⟨bigStrBuf_get1, bigStrBuf_lenfield, bigStrBuf_payload, ?_⟩
  refine appendValue_string_oob sfmtX bigStrBuf 0 msg0 4294967295 bigStrBuf_get1
    bigStrBuf_lenfield ?_
  have h6 : m32 (0 + 6) = 6 := by decide
  have h5 : m32 (0 + 6 + 4294967295) = 5 := by decide
  rw [h6, h5, readBytes, if_neg]
  rintro ⟨h, -⟩
  omega

end Nslogger
